import Mathlib

/-!
Verification development for the InfluxDB → VictoriaMetrics migration tool.

The definitions below are a shallow embedding of the Python sources
(`src/mapping.py`, `src/vm_writer.py`, `src/progress.py`, `src/migrate.py`).
Python dicts are modelled as association lists (first binding wins, keys
unique), Python `None`-able values as `Option`, raised exceptions as
`Except`, and the global lazily-loaded schema/known-metric cache as
explicit `Schema` / known-metric-list parameters.  Strings keep Python
semantics: `str.lower()` is per-character `Char.toLower` (the schema data
is ASCII), `p in s` is substring search, and truthiness of a string is
non-emptiness.
-/

namespace InfluxToVM

/-- Python `needle.isPrefix-like` check: `listIsPre n h` is true iff `n` is a
prefix of `h` (used to implement Python's `in` operator on strings). -/
def listIsPre : List Char → List Char → Bool
  | [], _ => true
  | _ :: _, [] => false
  | a :: as, b :: bs => a = b && listIsPre as bs

/-- Python's `needle in hay` substring test on character lists. -/
def strContainsL : List Char → List Char → Bool
  | [], needle => needle.isEmpty
  | hay@(_ :: t), needle => listIsPre needle hay || strContainsL t needle

/-- Python's `needle in hay` on strings. -/
def strContainsS (hay needle : String) : Bool :=
  strContainsL hay.data needle.data

/-- Python `str.lower()` (per-character; the schema entity ids and patterns
are ASCII, where `Char.toLower` agrees with Python). -/
def pyLower (s : String) : String := ⟨s.data.map Char.toLower⟩

/-- Lookup in a Python dict modelled as an association list
(`d.get(k)` / `k in d` combined). -/
def dictGet {α : Type} : List (String × α) → String → Option α
  | [], _ => none
  | (k, v) :: rest, key => if k = key then some v else dictGet rest key

/-- `mapping.py`: sentinel value `IGNORE_METRIC` indicating a record
should be ignored. -/
def IGNORE_METRIC : String := "__IGNORE__"

/-- One entry of `metric_mappings[domain][measurement]` in
`SCHEMA_MAPPING.yaml` as consumed by `mapping.py` (`.get` defaults:
`ignore`/`allow_new`/`special_mapping_required` default to `False`,
`metric` to `None`). -/
structure MappingInfo where
  metric : Option String
  ignore : Bool
  allow_new : Bool
  special_mapping_required : Bool
deriving DecidableEq

/-- One entry of `field_mappings[domain][field]`. -/
structure FieldInfo where
  metric : Option String
  ignore : Bool
deriving DecidableEq

/-- One entry of `special_mappings[measurement].rules`. -/
structure SpecialRule where
  pattern : String
  metric : Option String
  ignore : Bool
deriving DecidableEq

/-- The loaded YAML schema as used by `mapping.py`.  `computedEntityTemplate`
models the compiled `labels.computed.entity.template` format string
(default `"\x7bdomain\x7d.\x7bentity_id\x7d"`) as a function of
`(domain, entity_id)`; `staticLabels` models `labels.static`. -/
structure Schema where
  metricMappings : List (String × List (String × MappingInfo))
  fieldMappings : List (String × List (String × FieldInfo))
  specialMappings : List (String × List SpecialRule)
  computedEntityTemplate : Option (String → String → String)
  staticLabels : List (String × String)

/-- `mapping.get_field_metric`: metric for a `(domain, field)` pair from
`field_mappings`; `some IGNORE_METRIC` when marked `ignore`. -/
def get_field_metric (s : Schema) (domain field : String) : Option String :=
  match dictGet ((dictGet s.fieldMappings domain).getD []) field with
  | some info => if info.ignore then some IGNORE_METRIC else info.metric
  | none => none

/-- First loop of `mapping._apply_special_mapping`: scan the rules in
declared order, skipping the `default` pattern, returning the matched
rule's outcome (early `return`, even when its `metric` key is absent). -/
def specialFirstPass (entityIdLower : String) : List SpecialRule → Option (Option String)
  | [] => none
  | r :: rest =>
    let pat := pyLower r.pattern
    if pat = "default" then specialFirstPass entityIdLower rest
    else if strContainsS entityIdLower pat then
      some (if r.ignore then some IGNORE_METRIC else r.metric)
    else specialFirstPass entityIdLower rest

/-- Second loop of `mapping._apply_special_mapping`: find the `default`
rule and return its outcome. -/
def specialDefaultPass : List SpecialRule → Option (Option String)
  | [] => none
  | r :: rest =>
    if pyLower r.pattern = "default" then
      some (if r.ignore then some IGNORE_METRIC else r.metric)
    else specialDefaultPass rest

/-- `mapping._apply_special_mapping`: disambiguation for ambiguous units by
entity-id pattern, case-insensitive. -/
def apply_special_mapping (s : Schema) (measurement entity_id : String) : Option String :=
  let rules := (dictGet s.specialMappings measurement).getD []
  match specialFirstPass (pyLower entity_id) rules with
  | some res => res
  | none =>
    match specialDefaultPass rules with
    | some res => res
    | none => none

/-- The generic fallback metric name of `mapping.get_vm_metric_name`. -/
def fallback_metric (domain : String) : String :=
  "homeassistant_" ++ domain ++ "_state"

/-- Tail of `mapping.get_vm_metric_name`'s mapped branch:
`if metric: return metric` followed by the generic fallback. -/
def metricOrFallback (metric : Option String) (domain : String) : Option String :=
  match metric with
  | some m => if m ≠ "" then some m else some (fallback_metric domain)
  | none => some (fallback_metric domain)

/-- `mapping.get_vm_metric_name`: best-effort resolution of
`(domain, measurement, entity_id, field)` to a metric name; `none` both
when the mapping is marked ignored and when a non-default field has no
`field_mappings` entry. -/
def get_vm_metric_name (s : Schema) (domain measurement entity_id : String)
    (field : String := "value") : Option String :=
  if field ≠ "value" then
    match get_field_metric s domain field with
    | some m => if m = IGNORE_METRIC then none else if m ≠ "" then some m else none
    | none => none
  else
    match dictGet ((dictGet s.metricMappings domain).getD []) measurement with
    | some info =>
      if info.ignore then none
      else if info.special_mapping_required then
        match apply_special_mapping s measurement entity_id with
        | some sm =>
          if sm = IGNORE_METRIC then none
          else if sm ≠ "" then some sm
          else metricOrFallback info.metric domain
        | none => metricOrFallback info.metric domain
      else metricOrFallback info.metric domain
    | none => some (fallback_metric domain)

/-- `mapping.is_new_metric_allowed`. -/
def is_new_metric_allowed (s : Schema) (domain measurement : String) : Bool :=
  match dictGet ((dictGet s.metricMappings domain).getD []) measurement with
  | some info => info.allow_new
  | none => false

/-- `mapping.validate_metric_name` against the fetched known-metric set
(modelled as a list, membership only). -/
def validate_metric_name (known : List String) (metric_name : String) : Bool :=
  known.contains metric_name

/-- The `ValueError` message raised by `mapping.get_vm_metric_name_strict`. -/
def strict_error_msg (metric domain measurement entity_id field : String) : String :=
  "Unknown VM metric \x27" ++ metric ++ "\x27 generated from domain=\x27" ++ domain
    ++ "\x27, measurement=\x27" ++ measurement ++ "\x27, entity_id=\x27" ++ entity_id
    ++ "\x27, field=\x27" ++ field ++ "\x27. Not in known VM metrics list."

/-- `mapping.get_vm_metric_name_strict`: `.error` models the raised
`ValueError`, `.ok none` the ignored/skipped outcome. -/
def get_vm_metric_name_strict (s : Schema) (known : List String)
    (domain measurement entity_id : String) (field : String := "value") :
    Except String (Option String) :=
  match get_vm_metric_name s domain measurement entity_id field with
  | none => .ok none
  | some metric_name =>
    if validate_metric_name known metric_name then .ok (some metric_name)
    else if is_new_metric_allowed s domain measurement then .ok (some metric_name)
    else .error (strict_error_msg metric_name domain measurement entity_id field)

/-- The per-record error string built by `mapping.dry_run_validate`. -/
def dry_run_error_msg (domain measurement entity_id msg : String) : String :=
  "Failed to map record: domain=\x27" ++ domain ++ "\x27, measurement=\x27"
    ++ measurement ++ "\x27, entity_id=\x27" ++ entity_id ++ "\x27 - " ++ msg

/-- One iteration of `mapping.dry_run_validate`'s loop: a non-raising
strict resolution (including the ignored `None` outcome) bumps the
success count, a `ValueError` appends its message. -/
def dryRunStep (s : Schema) (known : List String) (acc : Nat × List String)
    (r : String × String × String) : Nat × List String :=
  match get_vm_metric_name_strict s known r.1 r.2.1 r.2.2 "value" with
  | .ok _ => (acc.1 + 1, acc.2)
  | .error e => (acc.1, acc.2 ++ [dry_run_error_msg r.1 r.2.1 r.2.2 e])

/-- `mapping.dry_run_validate`: count successes, collect error strings. -/
def dry_run_validate (s : Schema) (known : List String)
    (records : List (String × String × String)) : Nat × List String :=
  records.foldl (dryRunStep s known) (0, [])

/-! ### `vm_writer.py` -/

/-- `vm_writer.VMDataPoint`.  `value` holds Python's decimal rendering of
the float (`str(point.value)` as interpolated by the f-string); labels are
the dict's key/value pairs in insertion order. -/
structure VMDataPoint where
  metric_name : String
  labels : List (String × String)
  value : String
  timestamp_ms : Int
deriving DecidableEq

/-- The `escape_label_value` closure in
`vm_writer.VMWriter.format_prometheus_line`: one global single-character
replacement, Python `str.replace(old, new)` for a one-character `old`. -/
def pyReplaceChar (s : List Char) (old : Char) (new : List Char) : List Char :=
  s.flatMap fun c => if c = old then new else [c]

/-- Label-value escaping: backslashes first, then quotes, then newlines. -/
def escape_label_value (v : String) : String :=
  ⟨pyReplaceChar (pyReplaceChar (pyReplaceChar v.data '\\' ['\\', '\\'])
      '\"' ['\\', '\"']) '\n' ['\\', 'n']⟩

/-- Per-character view of `escape_label_value` (proved equal below). -/
def escChar (c : Char) : List Char :=
  if c = '\\' then ['\\', '\\']
  else if c = '\"' then ['\\', '\"']
  else if c = '\n' then ['\\', 'n']
  else [c]

/-- Decoder inverting `escape_label_value` (each escape sequence maps back
to its source character); exists to state the reversibility law. -/
def unescapeAux : List Char → List Char
  | [] => []
  | [c] => [c]
  | c :: d :: t2 =>
    if c = '\\' then
      if d = '\\' then '\\' :: unescapeAux t2
      else if d = '\"' then '\"' :: unescapeAux t2
      else if d = 'n' then '\n' :: unescapeAux t2
      else c :: unescapeAux (d :: t2)
    else c :: unescapeAux (d :: t2)

/-- String-level decoder for escaped label values. -/
def unescape_label_value (s : String) : String := ⟨unescapeAux s.data⟩

/-- Python tuple comparison on `(key, value)` label pairs, as used by
`sorted(point.labels.items())`. -/
def labelLe (a b : String × String) : Prop :=
  a.1 < b.1 ∨ (a.1 = b.1 ∧ a.2 ≤ b.2)

instance : DecidableRel labelLe := fun a b =>
  inferInstanceAs (Decidable (a.1 < b.1 ∨ (a.1 = b.1 ∧ a.2 ≤ b.2)))

instance : IsTotal (String × String) labelLe where
  total a b := by
    rcases lt_trichotomy a.1 b.1 with h | h | h
    · exact Or.inl (Or.inl h)
    · rcases le_total a.2 b.2 with h2 | h2
      · exact Or.inl (Or.inr ⟨h, h2⟩)
      · exact Or.inr (Or.inr ⟨h.symm, h2⟩)
    · exact Or.inr (Or.inl h)

instance : IsTrans (String × String) labelLe where
  trans a b c hab hbc := by
    rcases hab with h1 | ⟨e1, l1⟩
    · rcases hbc with h2 | ⟨e2, _⟩
      · exact Or.inl (h1.trans h2)
      · exact Or.inl (e2 ▸ h1)
    · rcases hbc with h2 | ⟨e2, l2⟩
      · exact Or.inl (e1 ▸ h2)
      · exact Or.inr ⟨e1.trans e2, l1.trans l2⟩

instance : IsAntisymm (String × String) labelLe where
  antisymm a b hab hba := by
    rcases hab with h1 | ⟨e1, l1⟩
    · rcases hba with h2 | ⟨e2, _⟩
      · exact absurd h2 (lt_asymm h1)
      · exact absurd (e2 ▸ h1) (lt_irrefl _)
    · rcases hba with h2 | ⟨e2, l2⟩
      · exact absurd (e1 ▸ h2) (lt_irrefl _)
      · exact Prod.ext e1 (le_antisymm l1 l2)

/-- `sorted(point.labels.items())`: the unique `labelLe`-sorted permutation
of the label pairs (Python's sort is over the same linear order). -/
def sortLabels (l : List (String × String)) : List (String × String) :=
  l.insertionSort labelLe

/-- `vm_writer.VMWriter.format_prometheus_line`. -/
def format_prometheus_line (point : VMDataPoint) : String :=
  let label_string :=
    if point.labels.isEmpty then ""
    else
      "\x7b" ++ String.intercalate ","
        ((sortLabels point.labels).map
          (fun kv => kv.1 ++ "=\"" ++ escape_label_value kv.2 ++ "\"")) ++ "\x7d"
  point.metric_name ++ label_string ++ " " ++ point.value ++ " " ++ toString point.timestamp_ms

/-- Mutable statistics state of `vm_writer.VMWriter` (connection/session
configuration is external and not part of the counter state). -/
structure VMWriter where
  dry_run : Bool
  points_written : Nat
  batches_sent : Nat
deriving DecidableEq

/-- Outcome of the HTTP POST performed by `write_batch` in real mode
(retries on 5xx happen inside the session adapter, an external
collaborator; this is the final transport outcome). -/
inductive PostResult
  | response (status : Nat) (body : String)
  | connError
  | timeoutError
deriving DecidableEq

/-- Errors raised by `vm_writer.VMWriter.write_batch`:
`WriteError(status_code, body)` or a `ConnectionError`. -/
inductive WriteFailure
  | writeError (status_code : Nat) (body : String)
  | connectionError (msg : String)
deriving DecidableEq

/-- `vm_writer.VMWriter.write_batch`: returns the updated writer and the
count written; formats every point (also in dry-run). -/
def write_batch (w : VMWriter) (points : List VMDataPoint) (net : PostResult) :
    Except WriteFailure (VMWriter × Nat) :=
  if points.isEmpty then .ok (w, 0)
  else
    let _lines := points.map format_prometheus_line
    if w.dry_run then
      .ok ({ w with points_written := w.points_written + points.length,
                    batches_sent := w.batches_sent + 1 }, points.length)
    else
      match net with
      | .response status body =>
        if 400 ≤ status then .error (.writeError status (⟨body.data.take 500⟩ : String))
        else
          .ok ({ w with points_written := w.points_written + points.length,
                        batches_sent := w.batches_sent + 1 }, points.length)
      | .connError => .error (.connectionError "Failed to connect")
      | .timeoutError => .error (.connectionError "Timeout connecting")

/-! ### `progress.py` -/

/-- `progress.MigrationProgress` (numeric fields are Python ints). -/
structure MigrationProgress where
  started_at : String
  last_updated : String
  status : String
  total_records : Int
  oldest_timestamp : String
  newest_timestamp : String
  last_migrated_date : Option String
  records_migrated : Int
  records_failed : Int
  batches_sent : Int
  errors : List String
  dry_run : Bool
deriving DecidableEq

/-- JSON documents as produced by `json.dump(progress.to_dict())` and read
back by `json.load` (only the shapes a `MigrationProgress` serializes to). -/
inductive Json
  | null
  | bool (b : Bool)
  | num (n : Int)
  | str (s : String)
  | arr (l : List Json)
  | obj (fields : List (String × Json))

/-- `MigrationProgress.to_dict` composed with JSON serialization:
the document written by `ProgressTracker.save`. -/
def progressToJson (p : MigrationProgress) : Json :=
  .obj [("started_at", .str p.started_at),
        ("last_updated", .str p.last_updated),
        ("status", .str p.status),
        ("total_records", .num p.total_records),
        ("oldest_timestamp", .str p.oldest_timestamp),
        ("newest_timestamp", .str p.newest_timestamp),
        ("last_migrated_date",
          match p.last_migrated_date with
          | none => .null
          | some d => .str d),
        ("records_migrated", .num p.records_migrated),
        ("records_failed", .num p.records_failed),
        ("batches_sent", .num p.batches_sent),
        ("errors", .arr (p.errors.map .str)),
        ("dry_run", .bool p.dry_run)]

/-- Decode a JSON array of strings (the `errors` field). -/
def decodeStrList : List Json → Option (List String)
  | [] => some []
  | .str s :: rest => (decodeStrList rest).map (s :: ·)
  | _ => none

/-- Key lookup in a decoded JSON object (`data[key]`). -/
def jdictGet : List (String × Json) → String → Option Json
  | [], _ => none
  | (k, v) :: rest, key => if k = key then some v else jdictGet rest key

/-- A string field of the decoded document. -/
def asStr : Json → Option String
  | .str s => some s
  | _ => none

/-- An integer field of the decoded document. -/
def asNum : Json → Option Int
  | .num n => some n
  | _ => none

/-- A boolean field of the decoded document. -/
def asBool : Json → Option Bool
  | .bool b => some b
  | _ => none

/-- The nullable `last_migrated_date` field. -/
def asNullableStr : Json → Option (Option String)
  | .null => some none
  | .str s => some (some s)
  | _ => none

/-- The `errors` string-list field. -/
def asStrList : Json → Option (List String)
  | .arr l => decodeStrList l
  | _ => none

/-- `json.load` + `MigrationProgress.from_dict` (`cls(**data)`): each of the
dataclass's twelve fields is taken from the document by key, and the
document must carry exactly those twelve keys (an extra or missing key
raises `TypeError` in `cls(**data)`); a shape that does not decode models
the `(json.JSONDecodeError, KeyError, TypeError)` branch of `load`. -/
def progressFromJson : Json → Option MigrationProgress
  | .obj fields =>
    if fields.length = 12 then do
      let a ← (jdictGet fields "started_at").bind asStr
      let b ← (jdictGet fields "last_updated").bind asStr
      let c ← (jdictGet fields "status").bind asStr
      let d ← (jdictGet fields "total_records").bind asNum
      let e ← (jdictGet fields "oldest_timestamp").bind asStr
      let f ← (jdictGet fields "newest_timestamp").bind asStr
      let lmd ← (jdictGet fields "last_migrated_date").bind asNullableStr
      let g ← (jdictGet fields "records_migrated").bind asNum
      let h ← (jdictGet fields "records_failed").bind asNum
      let i ← (jdictGet fields "batches_sent").bind asNum
      let errs ← (jdictGet fields "errors").bind asStrList
      let dr ← (jdictGet fields "dry_run").bind asBool
      some ⟨a, b, c, d, e, f, lmd, g, h, i, errs, dr⟩
    else none
  | _ => none

/-- The on-disk state file: `none` models "no progress file". -/
def ProgressStore := Option Json

/-- `ProgressTracker.save`: stamp `last_updated` with the current time,
then atomically replace the file with the serialized state.  Returns the
new store content and the mutated in-memory progress. -/
def tracker_save (_st : ProgressStore) (p : MigrationProgress) (now : String) :
    ProgressStore × MigrationProgress :=
  let p' := { p with last_updated := now }
  (some (progressToJson p'), p')

/-- `ProgressTracker.load`: absent file or undecodable content gives
`none`. -/
def tracker_load (st : ProgressStore) : Option MigrationProgress :=
  match st with
  | none => none
  | some j => progressFromJson j

/-- `ProgressTracker.update`: set `last_migrated_date` (the date's ISO
string), add the day's records and batches, set status `in_progress`,
then save. -/
def tracker_update (st : ProgressStore) (p : MigrationProgress)
    (migrated_date : String) (records batches : Int) (now : String) :
    ProgressStore × MigrationProgress :=
  tracker_save st
    { p with last_migrated_date := some migrated_date,
             records_migrated := p.records_migrated + records,
             batches_sent := p.batches_sent + batches,
             status := "in_progress" } now

/-- `ProgressTracker.mark_completed`. -/
def tracker_mark_completed (st : ProgressStore) (p : MigrationProgress) (now : String) :
    ProgressStore × MigrationProgress :=
  tracker_save st { p with status := "completed" } now

/-- `ProgressTracker.mark_failed`: append (never replace) the error. -/
def tracker_mark_failed (st : ProgressStore) (p : MigrationProgress)
    (error : String) (now : String) : ProgressStore × MigrationProgress :=
  tracker_save st { p with status := "failed", errors := p.errors ++ [error] } now

/-! ### `mapping.build_vm_labels` and `migrate.py` -/

/-- Python `dict.update`: existing keys are overwritten in place, new keys
appended in order. -/
def dictUpdate (base upds : List (String × String)) : List (String × String) :=
  upds.foldl (fun acc kv =>
    if acc.any (fun p => p.1 = kv.1) then
      acc.map (fun p => if p.1 = kv.1 then (p.1, kv.2) else p)
    else acc ++ [kv]) base

/-- `mapping.build_vm_labels`. -/
def build_vm_labels (s : Schema) (domain entity_id friendly_name : String) :
    List (String × String) :=
  let computed :=
    match s.computedEntityTemplate with
    | some tmpl => [("entity", tmpl domain entity_id)]
    | none => []
  dictUpdate (computed ++ [("domain", domain), ("friendly_name", friendly_name)])
    s.staticLabels

/-- `influx_reader.InfluxDataPoint` as consumed by `migrate.migrate_day`.
`value` is the rendered float (see `VMDataPoint.value`) and
`timestamp_ms` the already-converted `int(timestamp.timestamp() * 1000)`. -/
structure InfluxDataPoint where
  domain : String
  entity_id : String
  measurement : String
  field : String
  friendly_name : String
  value : String
  timestamp_ms : Int
deriving DecidableEq

/-- The `VMDataPoint` built by `migrate.migrate_day` for a resolved
metric name. -/
def mkVMPoint (s : Schema) (metric_name : String) (pt : InfluxDataPoint) : VMDataPoint :=
  { metric_name := metric_name,
    labels := build_vm_labels s pt.domain pt.entity_id pt.friendly_name,
    value := pt.value,
    timestamp_ms := pt.timestamp_ms }

/-- The loop of `migrate.migrate_day`, threading the current batch and the
running counters; `writes` is the trace of `vm_writer.write_batch` calls
(each batch is assumed written successfully — a write failure aborts the
day like a mapping failure and yields no return value).  `.error` models
the re-raised `ValueError` from strict mapping. -/
def migrateDayGo (s : Schema) (known : List String) (batch_size : Nat) :
    List InfluxDataPoint → List VMDataPoint → Nat → Nat → Nat →
    List (List VMDataPoint) →
    Except String (Nat × Nat × Nat × List (List VMDataPoint))
  | [], batch, records_count, batches_sent, skipped_count, writes =>
    if batch.isEmpty then .ok (records_count, batches_sent, skipped_count, writes)
    else .ok (records_count, batches_sent + 1, skipped_count, writes ++ [batch])
  | pt :: rest, batch, records_count, batches_sent, skipped_count, writes =>
    match get_vm_metric_name_strict s known pt.domain pt.measurement pt.entity_id pt.field with
    | .error e => .error e
    | .ok none =>
      migrateDayGo s known batch_size rest batch records_count batches_sent
        (skipped_count + 1) writes
    | .ok (some metric_name) =>
      let batch' := batch ++ [mkVMPoint s metric_name pt]
      if batch_size ≤ batch'.length then
        migrateDayGo s known batch_size rest [] (records_count + 1)
          (batches_sent + 1) skipped_count (writes ++ [batch'])
      else
        migrateDayGo s known batch_size rest batch' (records_count + 1)
          batches_sent skipped_count writes

/-- `migrate.migrate_day` on one day's source stream: returns
`(records_migrated, batches_sent, records_skipped, written batches)`. -/
def migrate_day (s : Schema) (known : List String) (batch_size : Nat)
    (points : List InfluxDataPoint) :
    Except String (Nat × Nat × Nat × List (List VMDataPoint)) :=
  migrateDayGo s known batch_size points [] 0 0 0 []

/-! ### `migrate.main` control flow -/

/-- Observable side effects of one `migrate.main` run, in order: progress
resets, checkpoint persistence (`save`/`update`/`mark_completed`/
`mark_failed`), day migrations, and the dry-run validation pass. -/
inductive Ev
  | resetEv
  | saveNewEv
  | migrateDayEv (day : Nat)
  | updateEv (day : Nat)
  | markCompletedEv
  | markFailedEv
  | dryRunValidationEv
deriving DecidableEq

/-- The command-line switches of `migrate.main` relevant to control flow. -/
structure MainArgs where
  dry_run : Bool
  reset : Bool
deriving DecidableEq

/-- Oracles for `main`'s external collaborators: the loaded checkpoint,
schema loading, the InfluxDB connection, date parsing, the
VictoriaMetrics health check, the dry-run validation outcome
(`none` models a raised exception; otherwise
`(total, valid, skipped, errors)`), and each day's `migrate_day`
outcome over the resolved date range. -/
structure MainEnv where
  stored : Option MigrationProgress
  schemaOk : Bool
  influxOk : Bool
  datesOk : Bool
  healthOk : Bool
  dryRunResult : Option (Nat × Nat × Nat × List String)
  dayResults : List (Except String (Nat × Nat × Nat))

/-- The per-day migration loop of `migrate.main`: each successful day
appends a `migrate_day` call and a checkpoint `update`; a failed day
appends the inner `mark_failed` and re-raises (the outer handler adds a
second `mark_failed`). -/
def runDays : List (Except String (Nat × Nat × Nat)) → Nat → List Ev → Bool × List Ev
  | [], _, ev => (true, ev)
  | .ok _ :: rest, i, ev => runDays rest (i + 1) (ev ++ [.migrateDayEv i, .updateEv i])
  | .error _ :: _, i, ev => (false, ev ++ [.migrateDayEv i, .markFailedEv])

/-- `migrate.main` after the checkpoint-status gate: schema load, InfluxDB
connection, date parsing, fresh-progress creation, health check, then
either the dry-run validation branch or the migration loop. -/
def mainAfterLoad (args : MainArgs) (env : MainEnv) (ev : List Ev)
    (progress : Option MigrationProgress) : Nat × List Ev :=
  if !env.schemaOk then (1, ev)
  else if !env.influxOk then (1, ev)
  else if !env.datesOk then (1, ev)
  else
    let ev := if progress.isNone then ev ++ [Ev.saveNewEv] else ev
    if !args.dry_run && !env.healthOk then (1, ev)
    else if args.dry_run then
      match env.dryRunResult with
      | some (_, _, _, errors) =>
        if errors.isEmpty then (0, ev ++ [Ev.dryRunValidationEv])
        else (1, ev ++ [Ev.dryRunValidationEv])
      | none => (1, ev ++ [Ev.dryRunValidationEv, Ev.markFailedEv])
    else
      match runDays env.dayResults 0 ev with
      | (true, ev') => (0, ev' ++ [Ev.markCompletedEv])
      | (false, ev') => (1, ev' ++ [Ev.markFailedEv])

/-- `migrate.main`: handle `--reset`, load the checkpoint, short-circuit on
terminal statuses, then run.  Returns the process exit code and the event
trace.  A `--reset` deletes the state file, so the subsequent load yields
no progress. -/
def mainModel (args : MainArgs) (env : MainEnv) : Nat × List Ev :=
  let ev0 : List Ev := if args.reset then [.resetEv] else []
  let progress : Option MigrationProgress := if args.reset then none else env.stored
  match progress with
  | some p =>
    if p.status = "completed" then (0, ev0)
    else if p.status = "failed" then (1, ev0)
    else mainAfterLoad args env ev0 (some p)
  | none => mainAfterLoad args env ev0 none

/-! ### Theorems -/

/-- Decoding inverts encoding for the `errors` string list. -/
theorem decodeStrList_map_str (l : List String) :
    decodeStrList (l.map Json.str) = some l := by
  induction l with
  | nil => rfl
  | cons s rest ih => simp [decodeStrList, ih]

/-- C4: checkpoint `update` is strictly additive and in place — after two
sequential updates (dates `d1`, `d2`, even when equal) the checkpoint's
`recordsMigrated` grew by `r1 + r2`, `batchesSent` by `b1 + b2`,
`lastCompletedDate` is `d2`, and the status is `in_progress`; the
checkpoint layer performs no deduplication. -/
theorem C4_update_additive (st : ProgressStore) (p : MigrationProgress)
    (d1 d2 t1 t2 : String) (r1 b1 r2 b2 : Int) :
    ((tracker_update (tracker_update st p d1 r1 b1 t1).1
        (tracker_update st p d1 r1 b1 t1).2 d2 r2 b2 t2).2.records_migrated
        = p.records_migrated + (r1 + r2)) ∧
    ((tracker_update (tracker_update st p d1 r1 b1 t1).1
        (tracker_update st p d1 r1 b1 t1).2 d2 r2 b2 t2).2.batches_sent
        = p.batches_sent + (b1 + b2)) ∧
    ((tracker_update (tracker_update st p d1 r1 b1 t1).1
        (tracker_update st p d1 r1 b1 t1).2 d2 r2 b2 t2).2.last_migrated_date
        = some d2) ∧
    ((tracker_update (tracker_update st p d1 r1 b1 t1).1
        (tracker_update st p d1 r1 b1 t1).2 d2 r2 b2 t2).2.status
        = "in_progress") := by
  refine ⟨?_, ?_, rfl, rfl⟩ <;> simp [tracker_update, tracker_save, add_assoc]

/-- C5: checkpoint `save` followed by `load` reproduces every field of the
saved state exactly (for any state, hence also with an empty error list
and a null `lastCompletedDate`); `save` first stamps `lastUpdatedAt` with
the current time, so the loaded state is the state after stamping. -/
theorem C5_save_load_roundtrip (st : ProgressStore) (p : MigrationProgress)
    (now : String) :
    tracker_load (tracker_save st p now).1 = some (tracker_save st p now).2 ∧
    (tracker_save st p now).2 = { p with last_updated := now } := by
  refine ⟨?_, rfl⟩
  obtain ⟨a, b, c, d, e, f, lmd, g, h2, i, errs, dr⟩ := p
  cases lmd <;>
    simp [tracker_save, tracker_load, progressToJson, progressFromJson,
      jdictGet, asStr, asNum, asBool, asNullableStr, asStrList,
      decodeStrList_map_str]

/-- C10: `dry_run_validate` counts every record exactly once
(`success_count + |errors| = |records|`), and a record whose strict
resolution yields the ignored outcome (`None`) is counted as a success,
not as an error. -/
theorem C10_dry_run_counts (s : Schema) (known : List String)
    (records : List (String × String × String)) :
    ((dry_run_validate s known records).1
        + (dry_run_validate s known records).2.length = records.length) ∧
    (∀ d m e, get_vm_metric_name_strict s known d m e "value" = .ok none →
      dry_run_validate s known [(d, m, e)] = (1, [])) := by
  constructor
  · have go : ∀ (rs : List (String × String × String)) (acc : Nat × List String),
        (rs.foldl (dryRunStep s known) acc).1
          + (rs.foldl (dryRunStep s known) acc).2.length
          = acc.1 + acc.2.length + rs.length := by
      intro rs
      induction rs with
      | nil => intro acc; simp
      | cons r rest ih =>
        intro acc
        rw [List.foldl_cons, ih]
        rcases h : get_vm_metric_name_strict s known r.1 r.2.1 r.2.2 "value" with e | v <;>
          simp [dryRunStep, h] <;> omega
    simpa using go records (0, [])
  · intro d m e h
    simp [dry_run_validate, dryRunStep, h]

/-- C8: in dry-run and in real mode (with the real write succeeding),
`write_batch` on equal-length non-empty batches increments
`points_written` by the batch length and `batches_sent` by one
identically, so the two modes expose equal observable counters; and
`write_batch` on an empty list returns 0 in both modes without touching
either counter. -/
theorem C8_write_batch_modes :
    (∀ (w1 w2 : VMWriter) (pts1 pts2 : List VMDataPoint) (net1 : PostResult)
        (status : Nat) (body : String),
      w1.dry_run = true → w2.dry_run = false → pts1.length = pts2.length →
      pts1 ≠ [] → status < 400 →
      write_batch w1 pts1 net1
          = .ok ({ w1 with points_written := w1.points_written + pts1.length,
                           batches_sent := w1.batches_sent + 1 }, pts1.length) ∧
      write_batch w2 pts2 (.response status body)
          = .ok ({ w2 with points_written := w2.points_written + pts2.length,
                           batches_sent := w2.batches_sent + 1 }, pts2.length)) ∧
    (∀ (w : VMWriter) (net : PostResult), write_batch w [] net = .ok (w, 0)) := by
  constructor
  · intro w1 w2 pts1 pts2 net1 status body h1 h2 hlen hne hstatus
    have hne2 : pts2 ≠ [] := by
      intro h
      exact hne (List.eq_nil_of_length_eq_zero (by rw [hlen, h]; rfl))
    constructor
    · simp [write_batch, h1, hne]
    · simp [write_batch, h2, hne2, Nat.not_le_of_lt hstatus]
  · intro w net
    simp [write_batch]

/-- C6: terminal checkpoint states are sticky — with no reset requested, a
loaded `completed` checkpoint makes the run exit 0 and a loaded `failed`
checkpoint makes it exit 1, both with an empty event trace (no day
migrated, no checkpoint mutation, no validation pass). -/
theorem C6_terminal_states_sticky (args : MainArgs) (env : MainEnv)
    (p : MigrationProgress) (hreset : args.reset = false)
    (hload : env.stored = some p) :
    (p.status = "completed" → mainModel args env = (0, [])) ∧
    (p.status = "failed" → mainModel args env = (1, [])) := by
  constructor <;> intro h <;> simp [mainModel, hreset, hload, h]

/-- Witness for C6 at concrete completed and failed checkpoints. -/
theorem C6_terminal_states_sticky_witness :
    mainModel ⟨false, false⟩
      ⟨some ⟨"s", "u", "completed", 0, "o", "n", none, 0, 0, 0, [], false⟩,
        true, true, true, true, none, []⟩ = (0, []) ∧
    mainModel ⟨false, false⟩
      ⟨some ⟨"s", "u", "failed", 0, "o", "n", none, 0, 0, 0, [], false⟩,
        true, true, true, true, none, []⟩ = (1, []) :=
  ⟨(C6_terminal_states_sticky _ _ _ rfl rfl).1 rfl,
   (C6_terminal_states_sticky _ _ _ rfl rfl).2 rfl⟩

/-- Witness for C8 on concrete one-point batches and the empty batch. -/
theorem C8_write_batch_modes_witness :
    (write_batch ⟨true, 0, 0⟩ [⟨"m", [], "1.0", 0⟩] .connError
        = .ok (⟨true, 1, 1⟩, 1) ∧
      write_batch ⟨false, 5, 2⟩ [⟨"m", [], "1.0", 0⟩] (.response 204 "")
        = .ok (⟨false, 6, 3⟩, 1)) ∧
    write_batch ⟨true, 0, 0⟩ [] .connError = .ok (⟨true, 0, 0⟩, 0) :=
  ⟨C8_write_batch_modes.1 ⟨true, 0, 0⟩ ⟨false, 5, 2⟩ [⟨"m", [], "1.0", 0⟩]
      [⟨"m", [], "1.0", 0⟩] .connError 204 "" rfl rfl rfl (by simp) (by omega),
   C8_write_batch_modes.2 ⟨true, 0, 0⟩ .connError⟩

/-- Witness for C10 at a concrete record whose mapping is marked ignored. -/
theorem C10_dry_run_counts_witness :
    dry_run_validate
      ⟨[("binary_sensor", [("units", ⟨none, true, false, false⟩)])], [], [], none, []⟩
      [] [("binary_sensor", "units", "motion")] = (1, []) :=
  (C10_dry_run_counts
      ⟨[("binary_sensor", [("units", ⟨none, true, false, false⟩)])], [], [], none, []⟩
      [] [("binary_sensor", "units", "motion")]).2
    "binary_sensor" "units" "motion" rfl

/-- Claim-side reference semantics of disambiguation (C3's wording):
case-insensitive substring match of the entity id against each rule's
pattern in declared order, first match wins, the `default`-pattern rule is
skipped in that pass and applied only when no non-default pattern matched;
a matched rule's outcome is `Ignored` when its own `ignore` flag is set,
else its metric. -/
def claimDisambiguate (rules : List SpecialRule) (entity_id : String) : Option String :=
  match (rules.filter fun r =>
      (pyLower r.pattern != "default")
        && strContainsS (pyLower entity_id) (pyLower r.pattern)).head? with
  | some r => if r.ignore then some IGNORE_METRIC else r.metric
  | none =>
    match (rules.filter fun r => pyLower r.pattern == "default").head? with
    | some r => if r.ignore then some IGNORE_METRIC else r.metric
    | none => none

/-- The first pass of `_apply_special_mapping` returns the outcome of the
first matching non-default rule in declared order. -/
theorem specialFirstPass_eq (eidLow : String) (rules : List SpecialRule) :
    specialFirstPass eidLow rules =
      ((rules.filter fun r =>
          (pyLower r.pattern != "default")
            && strContainsS eidLow (pyLower r.pattern)).head?).map
        (fun r => if r.ignore then some IGNORE_METRIC else r.metric) := by
  induction rules with
  | nil => rfl
  | cons r rest ih =>
    by_cases h1 : pyLower r.pattern = "default"
    · simp [specialFirstPass, h1, ih]
    · by_cases h2 : strContainsS eidLow (pyLower r.pattern)
      · simp [specialFirstPass, h1, h2]
      · simp [specialFirstPass, h1, h2, ih]

/-- The second pass of `_apply_special_mapping` returns the outcome of the
first `default`-pattern rule. -/
theorem specialDefaultPass_eq (rules : List SpecialRule) :
    specialDefaultPass rules =
      ((rules.filter fun r => pyLower r.pattern == "default").head?).map
        (fun r => if r.ignore then some IGNORE_METRIC else r.metric) := by
  induction rules with
  | nil => rfl
  | cons r rest ih =>
    by_cases h1 : pyLower r.pattern = "default"
    · simp [specialDefaultPass, h1]
    · simp [specialDefaultPass, h1, ih]

/-- C3: disambiguation is case-insensitive (lowercased) substring matching
of the entity id against each rule's pattern in declared order, first
match wins, with the `default` rule skipped in the first pass and applied
only when no non-default pattern matches (proved as an equivalence between
`_apply_special_mapping` and the claim's reference semantics); and a
matched rule's own `ignore` flag takes precedence over returning the
parent rule's metric. -/
theorem C3_disambiguation (s : Schema) :
    (∀ measurement entity_id,
      apply_special_mapping s measurement entity_id
        = claimDisambiguate ((dictGet s.specialMappings measurement).getD []) entity_id) ∧
    (∀ domain measurement entity_id info,
      dictGet ((dictGet s.metricMappings domain).getD []) measurement = some info →
      info.ignore = false → info.special_mapping_required = true →
      apply_special_mapping s measurement entity_id = some IGNORE_METRIC →
      get_vm_metric_name s domain measurement entity_id "value" = none) := by
  constructor
  · intro measurement entity_id
    unfold apply_special_mapping claimDisambiguate
    dsimp only
    rw [specialFirstPass_eq, specialDefaultPass_eq]
    cases (((dictGet s.specialMappings measurement).getD []).filter fun r =>
        (pyLower r.pattern != "default")
          && strContainsS (pyLower entity_id) (pyLower r.pattern)).head? <;>
      cases (((dictGet s.specialMappings measurement).getD []).filter fun r =>
          pyLower r.pattern == "default").head? <;>
        simp
  · intro domain measurement entity_id info hlook hig hsp happ
    simp [get_vm_metric_name, hlook, hig, hsp, happ, IGNORE_METRIC]

/-- Witness for C3: case-insensitive first-match equivalence at a concrete
ruleset, and a matched `ignore` rule overriding the parent metric. -/
theorem C3_disambiguation_witness :
    (apply_special_mapping
        ⟨[("sensor", [("%", ⟨some "homeassistant_sensor_percent", false, false, true⟩)])],
          [], [("%", [⟨"default", some "pct_default", false⟩,
                      ⟨"Battery", some "battery_pct", false⟩,
                      ⟨"humid", none, true⟩])], none, []⟩
        "%" "X_BATTERY_2"
      = claimDisambiguate
          [⟨"default", some "pct_default", false⟩,
           ⟨"Battery", some "battery_pct", false⟩,
           ⟨"humid", none, true⟩] "X_BATTERY_2") ∧
    get_vm_metric_name
        ⟨[("sensor", [("%", ⟨some "homeassistant_sensor_percent", false, false, true⟩)])],
          [], [("%", [⟨"default", some "pct_default", false⟩,
                      ⟨"Battery", some "battery_pct", false⟩,
                      ⟨"humid", none, true⟩])], none, []⟩
        "sensor" "%" "living_humidifier" "value" = none :=
  ⟨(C3_disambiguation _).1 "%" "X_BATTERY_2",
   (C3_disambiguation _).2 "sensor" "%" "living_humidifier"
     ⟨some "homeassistant_sensor_percent", false, false, true⟩ rfl rfl rfl rfl⟩

/-- The three sequential replacements of `escape_label_value` act as one
per-character expansion (backslash first, so no double-escaping). -/
theorem escape_chars (l : List Char) :
    pyReplaceChar (pyReplaceChar (pyReplaceChar l '\\' ['\\', '\\'])
        '\"' ['\\', '\"']) '\n' ['\\', 'n'] = l.flatMap escChar := by
  induction l with
  | nil => rfl
  | cons c t ih =>
    simp only [pyReplaceChar, List.flatMap_cons, List.flatMap_append] at *
    rw [ih]
    by_cases h1 : c = '\\'
    · subst h1; rfl
    · by_cases h2 : c = '\"'
      · subst h2; rfl
      · by_cases h3 : c = '\n'
        · subst h3; rfl
        · simp [escChar, h1, h2, h3]

/-- The decoder inverts the per-character escape expansion. -/
theorem unescape_flatMap (l : List Char) :
    unescapeAux (l.flatMap escChar) = l := by
  induction l with
  | nil => rfl
  | cons c t ih =>
    rw [List.flatMap_cons]
    by_cases h1 : c = '\\'
    · subst h1
      simpa [escChar, unescapeAux] using ih
    · by_cases h2 : c = '\"'
      · subst h2
        simpa [escChar, unescapeAux, h1] using ih
      · by_cases h3 : c = '\n'
        · subst h3
          simpa [escChar, unescapeAux] using ih
        · have hc : escChar c = [c] := by simp [escChar, h1, h2, h3]
          rw [hc]
          revert ih
          generalize t.flatMap escChar = rest
          intro ih
          cases rest with
          | nil =>
            simp only [unescapeAux] at ih
            simp [unescapeAux, ← ih]
          | cons d t2 =>
            simp [unescapeAux, h1, ih]

/-- Sorting the labels is permutation-invariant. -/
theorem sortLabels_perm_eq {l1 l2 : List (String × String)} (h : l1.Perm l2) :
    sortLabels l1 = sortLabels l2 :=
  List.eq_of_perm_of_sorted
    (((l1.perm_insertionSort labelLe).trans h).trans
      (l2.perm_insertionSort labelLe).symm)
    (List.sorted_insertionSort labelLe l1)
    (List.sorted_insertionSort labelLe l2)

/-- C7: `format_prometheus_line` emits the labels in sorted key order
regardless of the input map's iteration order (the emitted line is
invariant under permuting the labels, and the emitted key sequence is
sorted), and label-value escaping — backslash, then quote, then
newline — is reversible, so a value containing backslash, quote, and
newline characters is decodable back to the original. -/
theorem C7_format_line (p : VMDataPoint) :
    (∀ l', p.labels.Perm l' →
      format_prometheus_line p = format_prometheus_line { p with labels := l' }) ∧
    List.Sorted (fun a b : String => a ≤ b) ((sortLabels p.labels).map Prod.fst) ∧
    (∀ v, unescape_label_value (escape_label_value v) = v) := by
  refine ⟨?_, ?_, ?_⟩
  · intro l' hperm
    have hs : sortLabels p.labels = sortLabels l' := sortLabels_perm_eq hperm
    have he : p.labels.isEmpty = l'.isEmpty := by
      have hlen := hperm.length_eq
      rcases hpl : p.labels with _ | ⟨x, xs⟩ <;> rcases hl' : l' with _ | ⟨y, ys⟩ <;>
        simp_all
    unfold format_prometheus_line
    dsimp only
    rw [hs, he]
  · have hsorted := List.sorted_insertionSort labelLe p.labels
    exact List.Pairwise.map Prod.fst
      (fun a b hab => by
        rcases hab with h | ⟨h, _⟩
        · exact le_of_lt h
        · exact le_of_eq h)
      hsorted
  · intro v
    obtain ⟨l⟩ := v
    show String.mk (unescapeAux (pyReplaceChar (pyReplaceChar (pyReplaceChar l
        '\\' ['\\', '\\']) '\"' ['\\', '\"']) '\n' ['\\', 'n'])) = String.mk l
    rw [escape_chars, unescape_flatMap]

/-- Witness for C7: permuted two-label maps emit the same line, and a value
holding backslash, quote, and newline round-trips through escaping. -/
theorem C7_format_line_witness :
    format_prometheus_line ⟨"m", [("b", "2"), ("a", "1")], "1.0", 5⟩
        = format_prometheus_line ⟨"m", [("a", "1"), ("b", "2")], "1.0", 5⟩ ∧
    unescape_label_value (escape_label_value "a\\b\"c\nd") = "a\\b\"c\nd" :=
  ⟨(C7_format_line ⟨"m", [("b", "2"), ("a", "1")], "1.0", 5⟩).1
      [("a", "1"), ("b", "2")] (List.Perm.swap _ _ _),
   (C7_format_line ⟨"m", [("b", "2"), ("a", "1")], "1.0", 5⟩).2.2 "a\\b\"c\nd"⟩

/-- Elements of `dropLast` are elements of the list. -/
theorem mem_of_mem_dropLast {α : Type} {a : α} {l : List α}
    (h : a ∈ l.dropLast) : a ∈ l :=
  l.dropLast_sublist.subset h

/-- Loop invariant of `migrate_day`: counters conserve the stream, every
in-loop flush is exactly `batch_size` points, and `batches_sent` counts
the `write_batch` calls. -/
theorem migrateDayGo_spec (s : Schema) (known : List String) (batch_size : Nat)
    (hbs : 0 < batch_size) :
    ∀ (points : List InfluxDataPoint) (batch : List VMDataPoint)
      (records batches skipped : Nat) (writes : List (List VMDataPoint))
      (r b sk : Nat) (ws : List (List VMDataPoint)),
      batch.length < batch_size →
      (∀ w ∈ writes, w.length = batch_size) →
      migrateDayGo s known batch_size points batch records batches skipped writes
        = .ok (r, b, sk, ws) →
      (r + sk = records + skipped + points.length ∧
       b + writes.length = batches + ws.length ∧
       (ws.map List.length).sum + records
         = (writes.map List.length).sum + batch.length + r ∧
       (∀ w ∈ ws.dropLast, w.length = batch_size)) := by
  intro points
  induction points with
  | nil =>
    intro batch records batches skipped writes r b sk ws hlt hw heq
    simp only [List.length_nil]
    by_cases hb : batch.isEmpty
    · have hbn : batch = [] := List.isEmpty_iff.mp hb
      subst hbn
      simp only [migrateDayGo, List.isEmpty_nil, if_true, Except.ok.injEq,
        Prod.mk.injEq] at heq
      obtain ⟨rfl, rfl, rfl, rfl⟩ := heq
      exact ⟨by omega, rfl, by simp,
        fun w hwm => hw w (mem_of_mem_dropLast hwm)⟩
    · simp only [migrateDayGo, hb, if_false, Except.ok.injEq, Prod.mk.injEq,
        Bool.false_eq_true] at heq
      obtain ⟨rfl, rfl, rfl, rfl⟩ := heq
      refine ⟨by omega, by simp; omega, by simp, ?_⟩
      rw [List.dropLast_concat]
      exact hw
  | cons pt rest ih =>
    intro batch records batches skipped writes r b sk ws hlt hw heq
    simp only [List.length_cons]
    rcases hres : get_vm_metric_name_strict s known pt.domain pt.measurement
        pt.entity_id pt.field with e | om
    · rw [migrateDayGo, hres] at heq
      simp at heq
    · rcases om with _ | m
      · rw [migrateDayGo, hres] at heq
        dsimp only at heq
        obtain ⟨h1, h2, h3, h4⟩ :=
          ih batch records batches (skipped + 1) writes r b sk ws hlt hw heq
        exact ⟨by omega, h2, h3, h4⟩
      · rw [migrateDayGo, hres] at heq
        dsimp only at heq
        by_cases hfl : batch_size ≤ (batch ++ [mkVMPoint s m pt]).length
        · rw [if_pos hfl] at heq
          have hfull : (batch ++ [mkVMPoint s m pt]).length = batch_size := by
            simp at hfl ⊢
            omega
          have hw' : ∀ w ∈ writes ++ [batch ++ [mkVMPoint s m pt]],
              w.length = batch_size := by
            intro w hwm
            rcases List.mem_append.mp hwm with h | h
            · exact hw w h
            · rw [List.mem_singleton.mp h]
              exact hfull
          have := ih [] (records + 1) (batches + 1) skipped
            (writes ++ [batch ++ [mkVMPoint s m pt]]) r b sk ws
            (by simpa using hbs) hw' heq
          obtain ⟨h1, h2, h3, h4⟩ := this
          refine ⟨by omega, by simp at h2; omega, ?_, h4⟩
          simp only [List.map_append, List.sum_append, List.map_cons,
            List.map_nil, List.sum_cons, List.sum_nil, List.length_nil] at h3
          simp only [List.length_append, List.length_cons, List.length_nil] at h3 hfull
          omega
        · rw [if_neg hfl] at heq
          have hlt' : (batch ++ [mkVMPoint s m pt]).length < batch_size := by
            omega
          have := ih (batch ++ [mkVMPoint s m pt]) (records + 1) batches skipped
            writes r b sk ws hlt' hw heq
          obtain ⟨h1, h2, h3, h4⟩ := this
          refine ⟨by omega, h2, ?_, h4⟩
          simp only [List.length_append, List.length_cons, List.length_nil] at h3
          omega

/-- C9: for every day's source stream that `migrate_day` completes, the
returned `records_migrated + records_skipped` equals the number of points
the source yielded, every non-skipped point lands in exactly one batch
(the written batches' sizes sum to `records_migrated`), every flushed
batch except possibly the final remainder holds exactly `batch_size`
points, and the returned `batches_sent` equals the number of
`write_batch` calls. -/
theorem C9_migrate_day_conservation (s : Schema) (known : List String)
    (batch_size : Nat) (points : List InfluxDataPoint)
    (r b sk : Nat) (ws : List (List VMDataPoint))
    (hbs : 0 < batch_size)
    (heq : migrate_day s known batch_size points = .ok (r, b, sk, ws)) :
    r + sk = points.length ∧
    b = ws.length ∧
    (ws.map List.length).sum = r ∧
    (∀ w ∈ ws.dropLast, w.length = batch_size) := by
  have := migrateDayGo_spec s known batch_size hbs points [] 0 0 0 [] r b sk ws
    (by simpa using hbs) (by simp) heq
  obtain ⟨h1, h2, h3, h4⟩ := this
  simp only [List.length_nil, List.map_nil, List.sum_nil] at h1 h2 h3
  exact ⟨by omega, by omega, by omega, h4⟩

/-- Witness for C9: a concrete three-point stream with batch size two
yields two full batches plus a remainder accounted exactly. -/
theorem C9_migrate_day_conservation_witness :
    migrate_day
        ⟨[("sensor", [("°C", ⟨some "homeassistant_sensor_temperature_celsius",
            false, false, false⟩)])], [], [], none, []⟩
        ["homeassistant_sensor_temperature_celsius"] 2
        [⟨"sensor", "t1", "°C", "value", "T 1", "21.5", 1000⟩,
         ⟨"sensor", "t2", "°C", "value", "T 2", "22.5", 2000⟩,
         ⟨"sensor", "t3", "°C", "value", "T 3", "23.5", 3000⟩]
      = .ok (3, 2, 0,
        [[⟨"homeassistant_sensor_temperature_celsius",
            [("domain", "sensor"), ("friendly_name", "T 1")], "21.5", 1000⟩,
          ⟨"homeassistant_sensor_temperature_celsius",
            [("domain", "sensor"), ("friendly_name", "T 2")], "22.5", 2000⟩],
         [⟨"homeassistant_sensor_temperature_celsius",
            [("domain", "sensor"), ("friendly_name", "T 3")], "23.5", 3000⟩]]) ∧
    (3 + 0 = 3 ∧ 2 = 2 ∧ 2 + (1 + 0) = 3) :=
  have heq : migrate_day
      ⟨[("sensor", [("°C", ⟨some "homeassistant_sensor_temperature_celsius",
          false, false, false⟩)])], [], [], none, []⟩
      ["homeassistant_sensor_temperature_celsius"] 2
      [⟨"sensor", "t1", "°C", "value", "T 1", "21.5", 1000⟩,
       ⟨"sensor", "t2", "°C", "value", "T 2", "22.5", 2000⟩,
       ⟨"sensor", "t3", "°C", "value", "T 3", "23.5", 3000⟩]
    = .ok (3, 2, 0,
      [[⟨"homeassistant_sensor_temperature_celsius",
          [("domain", "sensor"), ("friendly_name", "T 1")], "21.5", 1000⟩,
        ⟨"homeassistant_sensor_temperature_celsius",
          [("domain", "sensor"), ("friendly_name", "T 2")], "22.5", 2000⟩],
       [⟨"homeassistant_sensor_temperature_celsius",
          [("domain", "sensor"), ("friendly_name", "T 3")], "23.5", 3000⟩]]) := rfl
  have hc := C9_migrate_day_conservation _ _ 2 _ 3 2 0 _ (by omega) heq
  ⟨heq, hc.1, hc.2.1, hc.2.2.1⟩

/-- A list starts with itself followed by anything. -/
theorem listIsPre_append (p rest : List Char) : listIsPre p (p ++ rest) = true := by
  induction p with
  | nil => rfl
  | cons c t ih => simp [listIsPre, ih]

/-- The empty needle is contained in every haystack. -/
theorem strContainsL_nil_needle (s : List Char) : strContainsL s [] = true := by
  cases s <;> simp [strContainsL, listIsPre]

/-- A haystack contains its own leading segment. -/
theorem strContainsL_self_append (n suf : List Char) :
    strContainsL (n ++ suf) n = true := by
  cases n with
  | nil => simpa using strContainsL_nil_needle suf
  | cons c t => simp [strContainsL, listIsPre, listIsPre_append]

/-- Containment is preserved by prepending a character. -/
theorem strContainsL_cons (c : Char) (t n : List Char)
    (h : strContainsL t n = true) : strContainsL (c :: t) n = true := by
  simp [strContainsL, h]

/-- Containment is preserved by prepending any list. -/
theorem strContainsL_append_right (a t n : List Char)
    (h : strContainsL t n = true) : strContainsL (a ++ t) n = true := by
  induction a with
  | nil => simpa using h
  | cons c as ih => simpa [List.cons_append] using strContainsL_cons c _ _ ih

/-- A string whose characters split around the needle contains it. -/
theorem strContainsS_of_split (hay needle : String) (pre suf : List Char)
    (h : hay.data = pre ++ (needle.data ++ suf)) :
    strContainsS hay needle = true := by
  unfold strContainsS
  rw [h]
  exact strContainsL_append_right pre _ _ (strContainsL_self_append needle.data suf)

/-- The strict `ValueError` message embeds the supplied domain, measurement
and entity id verbatim. -/
theorem strict_error_msg_contains (metric domain measurement entity_id field : String) :
    strContainsS (strict_error_msg metric domain measurement entity_id field)
      domain = true ∧
    strContainsS (strict_error_msg metric domain measurement entity_id field)
      measurement = true ∧
    strContainsS (strict_error_msg metric domain measurement entity_id field)
      entity_id = true := by
  refine ⟨strContainsS_of_split _ _
      ("Unknown VM metric \x27".data ++ (metric.data
        ++ "\x27 generated from domain=\x27".data))
      (("\x27, measurement=\x27" ++ measurement ++ "\x27, entity_id=\x27"
        ++ entity_id ++ "\x27, field=\x27" ++ field
        ++ "\x27. Not in known VM metrics list.").data) ?_,
    strContainsS_of_split _ _
      ("Unknown VM metric \x27".data ++ (metric.data
        ++ ("\x27 generated from domain=\x27".data ++ (domain.data
        ++ "\x27, measurement=\x27".data))))
      (("\x27, entity_id=\x27" ++ entity_id ++ "\x27, field=\x27" ++ field
        ++ "\x27. Not in known VM metrics list.").data) ?_,
    strContainsS_of_split _ _
      ("Unknown VM metric \x27".data ++ (metric.data
        ++ ("\x27 generated from domain=\x27".data ++ (domain.data
        ++ ("\x27, measurement=\x27".data ++ (measurement.data
        ++ "\x27, entity_id=\x27".data))))))
      (("\x27, field=\x27" ++ field
        ++ "\x27. Not in known VM metrics list.").data) ?_⟩ <;>
    simp [strict_error_msg, List.append_assoc]

/-- C1 (amended): for a `(domain, unit)` pair absent from `metric_mappings`
whose generic fallback `homeassistant_<domain>_state` is also absent from
the known VM metric set, strict resolution on the default field raises a
`ValueError` whose message embeds the literal domain, unit and entity id
supplied (`allow_new` cannot hold for an absent pair). -/
theorem C1_absent_pair_strict_error (s : Schema) (known : List String)
    (domain measurement entity_id : String)
    (habsent : dictGet ((dictGet s.metricMappings domain).getD []) measurement = none)
    (hfb : known.contains (fallback_metric domain) = false) :
    get_vm_metric_name_strict s known domain measurement entity_id "value"
      = .error (strict_error_msg (fallback_metric domain) domain measurement
          entity_id "value") ∧
    strContainsS (strict_error_msg (fallback_metric domain) domain measurement
      entity_id "value") domain = true ∧
    strContainsS (strict_error_msg (fallback_metric domain) domain measurement
      entity_id "value") measurement = true ∧
    strContainsS (strict_error_msg (fallback_metric domain) domain measurement
      entity_id "value") entity_id = true := by
  refine ⟨?_, strict_error_msg_contains _ _ _ _ _⟩
  have hfb' : fallback_metric domain ∉ known := by simpa using hfb
  simp [get_vm_metric_name_strict, get_vm_metric_name, habsent,
    validate_metric_name, is_new_metric_allowed, hfb']

/-- Counterexample to C1 as stated: `("sensor", "°C")` is absent from an
empty ruleset, yet strict resolution does not raise — the generic fallback
`homeassistant_sensor_state` happens to be a known VM metric and is
returned. -/
theorem C1_absent_pair_strict_error_cex :
    dictGet ((dictGet (Schema.mk [] [] [] none []).metricMappings "sensor").getD [])
        "°C" = none ∧
    get_vm_metric_name_strict ⟨[], [], [], none, []⟩ ["homeassistant_sensor_state"]
        "sensor" "°C" "living_room" "value"
      = .ok (some "homeassistant_sensor_state") :=
  ⟨rfl, rfl⟩

/-- Witness for C1 with the fallback metric unknown. -/
theorem C1_absent_pair_strict_error_witness :
    get_vm_metric_name_strict ⟨[], [], [], none, []⟩ [] "sensor" "°C" "living_room"
        "value"
      = .error (strict_error_msg (fallback_metric "sensor") "sensor" "°C"
          "living_room" "value") ∧
    strContainsS (strict_error_msg (fallback_metric "sensor") "sensor" "°C"
      "living_room" "value") "°C" = true :=
  ⟨(C1_absent_pair_strict_error ⟨[], [], [], none, []⟩ [] "sensor" "°C"
      "living_room" rfl rfl).1,
   (C1_absent_pair_strict_error ⟨[], [], [], none, []⟩ [] "sensor" "°C"
      "living_room" rfl rfl).2.2.1⟩

/-- C2 (amended): a non-default-field record whose `(domain, field)` pair
has no `field_mappings` entry resolves to `None` — the very same outcome
as an ignored record, not a distinct `Unmapped` — strict resolution wraps
it as a non-raising skip, and `migrate_day` counts the record as skipped
and continues; only a strict-validation `ValueError` aborts the day. -/
theorem C2_missing_field_mapping_skipped (s : Schema) (known : List String)
    (domain measurement entity_id field : String)
    (hfield : field ≠ "value")
    (habsent : dictGet ((dictGet s.fieldMappings domain).getD []) field = none) :
    get_vm_metric_name s domain measurement entity_id field = none ∧
    get_vm_metric_name_strict s known domain measurement entity_id field = .ok none ∧
    (∀ (pt : InfluxDataPoint) (batch_size : Nat),
      pt.domain = domain → pt.measurement = measurement →
      pt.entity_id = entity_id → pt.field = field →
      migrate_day s known batch_size [pt] = .ok (0, 0, 1, [])) ∧
    (∀ (pt : InfluxDataPoint) (rest : List InfluxDataPoint) (batch_size : Nat)
        (e : String),
      get_vm_metric_name_strict s known pt.domain pt.measurement pt.entity_id
          pt.field = .error e →
      migrate_day s known batch_size (pt :: rest) = .error e) := by
  have h1 : get_vm_metric_name s domain measurement entity_id field = none := by
    simp [get_vm_metric_name, get_field_metric, habsent, hfield]
  have h2 : get_vm_metric_name_strict s known domain measurement entity_id field
      = .ok none := by
    simp [get_vm_metric_name_strict, h1]
  refine ⟨h1, h2, ?_, ?_⟩
  · intro pt batch_size hd hm he hf
    rw [migrate_day, migrateDayGo, hd, hm, he, hf, h2]
    rfl
  · intro pt rest batch_size e herr
    rw [migrate_day, migrateDayGo, herr]

/-- Counterexample to C2 as stated: with no `field_mappings` entry for
`("light", "brightness")`, resolution returns `None` — bit-for-bit the
same outcome an explicit `ignore` rule produces, so there is no distinct
`Unmapped` result — and `migrate_day` returns success counting the record
as skipped instead of failing the day. -/
theorem C2_missing_field_mapping_skipped_cex :
    get_vm_metric_name ⟨[], [], [], none, []⟩ "light" "%" "lamp" "brightness"
      = none ∧
    get_vm_metric_name ⟨[], [("light", [("brightness", ⟨none, true⟩)])], [], none, []⟩
        "light" "%" "lamp" "brightness" = none ∧
    migrate_day ⟨[], [], [], none, []⟩ [] 10
        [⟨"light", "lamp", "%", "brightness", "Lamp", "50", 0⟩]
      = .ok (0, 0, 1, []) :=
  ⟨rfl, rfl, rfl⟩

/-- Witness for C2 at a concrete unmapped non-default field. -/
theorem C2_missing_field_mapping_skipped_witness :
    get_vm_metric_name_strict ⟨[], [], [], none, []⟩ [] "light" "%" "lamp"
        "brightness" = .ok none ∧
    migrate_day ⟨[], [], [], none, []⟩ [] 10
        [⟨"light", "lamp", "%", "brightness", "Lamp", "50", 0⟩]
      = .ok (0, 0, 1, []) :=
  ⟨(C2_missing_field_mapping_skipped ⟨[], [], [], none, []⟩ [] "light" "%" "lamp"
      "brightness" (by decide) rfl).2.1,
   (C2_missing_field_mapping_skipped ⟨[], [], [], none, []⟩ [] "light" "%" "lamp"
      "brightness" (by decide) rfl).2.2.1
     ⟨"light", "lamp", "%", "brightness", "Lamp", "50", 0⟩ 10 rfl rfl rfl rfl⟩

end InfluxToVM
